import Mathlib

/-!
A shallow embedding of the benchmark orchestration logic of qbench:
src/wip_benchmarks.py (the command-line tool built around parse_arguments,
setup_backends, benchmark, run_benchmarks, save_benchmark_data, generate_plots
and main) and src/benchmarks.py (the original three-backend script).

Modelling conventions: measured durations are rationals; one dispatched
execution either returns a duration or raises an exception with a message;
numpy float values that can be NaN or infinite are an explicit value type;
result accumulation loops are folds over explicit state. All definitions are
executable so that concrete runs can be evaluated inside proofs.
-/

namespace QBench

/-- Outcome of dispatching one execution to a backend (simulator.run followed
by job.result() inside the timed window): the measured duration, or a raised
exception carrying its message. -/
inductive ExecOutcome where
  | ok (duration : ℚ)
  | exn (msg : String)
deriving DecidableEq

/-- The value np.mean gives on the collected times: NaN (none) on an empty
sample, otherwise the arithmetic mean. -/
def nmean (ts : List ℚ) : Option ℚ :=
  if ts.length = 0 then none else some (ts.sum / (ts.length : ℚ))

/-- The square of np.std of the collected times, i.e. the population variance:
NaN (none) on an empty sample. np.std itself is the square root of this value;
the embedding carries the variance because no claim depends on the numeric
value of the std column, only on whether it is present, NaN, and a function of
the sample. -/
def nvar (ts : List ℚ) : Option ℚ :=
  match nmean ts with
  | none => none
  | some m => some ((ts.map fun t => (t - m) ^ 2).sum / (ts.length : ℚ))

/-- The repeat loop of benchmark (wip_benchmarks.py lines 152-158): perform
the remaining number of timed executions starting at repeat index i,
collecting durations in order; an exception propagates immediately, so the
durations already collected are discarded with the aborted call frame. -/
def runRepeats (run : ℕ → ExecOutcome) : ℕ → ℕ → Except String (List ℚ)
  | 0, _ => .ok []
  | k + 1, i =>
    match run i with
    | .exn m => .error m
    | .ok d =>
      match runRepeats run k (i + 1) with
      | .error m => .error m
      | .ok ts => .ok (d :: ts)

/-- How many executions the repeat loop actually dispatches: it stops at the
first exception, so later repeats are never attempted. -/
def dispatchCount (run : ℕ → ExecOutcome) : ℕ → ℕ → ℕ
  | 0, _ => 0
  | k + 1, i =>
    match run i with
    | .exn _ => 1
    | .ok _ => 1 + dispatchCount run k (i + 1)

/-- benchmark (wip_benchmarks.py lines 150-160): run the repeat loop and, when
every repeat completed, reduce the duration sample to (np.mean, np.std); an
exception from any repeat propagates to the caller. -/
def benchmark (run : ℕ → ExecOutcome) (repeats : ℕ) :
    Except String (Option ℚ × Option ℚ) :=
  match runRepeats run repeats 0 with
  | .error m => .error m
  | .ok ts => .ok (nmean ts, nvar ts)

/-- What run_benchmarks stores for one (backend, size) pair: the success
branch appends the (mean, std) pair returned by benchmark (lines 225-227); the
except branch appends np.nan to both columns (lines 233-236), here kept as an
explicit failure tag carrying the message so the two origins of NaN stay
distinguishable in statements. -/
inductive Cell where
  | success (mean sd : Option ℚ)
  | failure (msg : String)
deriving DecidableEq

/-- The guarded trial of the inner loop of run_benchmarks (lines 223-236):
call benchmark under try/except Exception and convert a raised exception into
a failure cell instead of letting it escape. -/
def recordCell (run : ℕ → ExecOutcome) (repeats : ℕ) : Cell :=
  match benchmark run repeats with
  | .ok (m, s) => .success m s
  | .error m => .failure m

/-- A backend's observable behavior: its registry name, its response to the
k-th timed dispatch of the workload unit built for a given size, and its
response to the single dispatch of the warmup unit. -/
structure BackendBeh where
  name : String
  runAt : ℕ → ℕ → ExecOutcome
  warmupRun : ExecOutcome

/-- State of the sweep: for each initialized backend, in registration order,
the list of cells appended so far (the results dict of line 193 together with
the per-size appends of lines 226-236). -/
abbrev SweepState := List (BackendBeh × List Cell)

/-- results initialization (line 193): one empty column per backend that
initialized successfully. -/
def initState (backends : List BackendBeh) : SweepState :=
  backends.map fun b => (b, [])

/-- One row of the sweep (lines 214-237): for each backend in order, run the
guarded trial at this size and append exactly one cell to that backend's
column; a failure affects only the cell being appended. -/
def sweepRow (repeats : ℕ) (s : SweepState) (n : ℕ) : SweepState :=
  s.map fun p => (p.1, p.2 ++ [recordCell (p.1.runAt n) repeats])

/-- The whole sweep loop of run_benchmarks: fold the per-size row step over
the configured sizes, starting from the empty columns. -/
def runSweep (backends : List BackendBeh) (sizes : List ℕ) (repeats : ℕ) :
    SweepState :=
  sizes.foldl (sweepRow repeats) (initState backends)

/-- The column a single backend ends up with after the sweep: one cell per
configured size, in sweep order, each produced from that backend's own
behavior alone. -/
def columnFor (b : BackendBeh) (sizes : List ℕ) (repeats : ℕ) : List Cell :=
  sizes.map fun n => recordCell (b.runAt n) repeats

/-- The result table keyed the way the results dict is (results.keys()):
backend name to column of cells. -/
abbrev Table := List (String × List Cell)

/-- Forget the behaviors, keeping name and column: the view of the sweep state
that the export code reads. -/
def tableOf (s : SweepState) : Table :=
  s.map fun p => (p.1.name, p.2)

/-- The sweep loop of the original script benchmarks.py (lines 29-56): one
timed run per backend per size; the CPU call (line 36) is not wrapped in
try/except while the two GPU calls are, with np.nan recorded on their failure.
An exception from the CPU call therefore propagates and aborts the loop, and
nothing past the faulting size is recorded. -/
def legacySweep (cpu gpuD gpuC : ℕ → ExecOutcome) :
    List ℕ → Except String (List (ℚ × Option ℚ × Option ℚ))
  | [] => .ok []
  | n :: rest =>
    match cpu n with
    | .exn m => .error m
    | .ok t =>
      let gd : Option ℚ :=
        match gpuD n with
        | .ok d => some d
        | .exn _ => none
      let gc : Option ℚ :=
        match gpuC n with
        | .ok d => some d
        | .exn _ => none
      match legacySweep cpu gpuD gpuC rest with
      | .error m => .error m
      | .ok rows => .ok ((t, gd, gc) :: rows)

/-- Whether setup_backends tries to build a given backend (lines 115, 123,
135): it does when the requested list names it or contains "all". -/
def wantsBackend (blist : List String) (b : String) : Bool :=
  blist.contains "all" || blist.contains b

/-- setup_backends (wip_benchmarks.py lines 111-147), with each AerSimulator
construction replaced by its result. The CPU construction (line 116) is not
guarded, so its exception propagates out of the function; the two GPU
constructions are guarded by try/except and a failed one is skipped with a
printed warning, leaving it absent from the returned dict. The returned list
is the ordered key set of the backends dict. -/
def setup_backends (cpuCtor gpuDCtor gpuCCtor : Except String Unit)
    (blist : List String) : Except String (List String) :=
  let addGpus (acc : List String) : List String :=
    let acc1 :=
      if wantsBackend blist "gpu_default" then
        match gpuDCtor with
        | .ok _ => acc ++ ["gpu_default"]
        | .error _ => acc
      else acc
    if wantsBackend blist "gpu_custatevec" then
      match gpuCCtor with
      | .ok _ => acc1 ++ ["gpu_custatevec"]
      | .error _ => acc1
    else acc1
  if wantsBackend blist "cpu" then
    match cpuCtor with
    | .error e => .error e
    | .ok _ => .ok (addGpus ["cpu"])
  else .ok (addGpus [])

/-- parse_arguments, the repeats flag (lines 101-106): argparse with type int
and default 1 performs no range validation, so any supplied count, including
zero, is accepted unchanged; no configuration error can arise from it. -/
def parseRepeats (supplied : Option ℕ) : Except String ℕ :=
  .ok (supplied.getD 1)

/-- A numpy floating value as it flows through the results arrays and the
speedup division: a finite number, a signed infinity, or NaN. -/
inductive NpVal where
  | num (q : ℚ)
  | posinf
  | neginf
  | nan
deriving DecidableEq

/-- Elementwise numpy division as used at line 297 (cpu_times / times), for the
values arising there: NaN propagates through, a finite value divided by zero
gives a signed infinity (or NaN for zero over zero) with at most a
RuntimeWarning, never a raised error. -/
def npdiv : NpVal → NpVal → NpVal
  | .nan, _ => .nan
  | _, .nan => .nan
  | .num a, .num b =>
    if b = 0 then (if 0 < a then .posinf else if a < 0 then .neginf else .nan)
    else .num (a / b)
  | .num _, .posinf => .num 0
  | .num _, .neginf => .num 0
  | .posinf, .num b => if b < 0 then .neginf else .posinf
  | .neginf, .num b => if b < 0 then .posinf else .neginf
  | .posinf, .posinf => .nan
  | .posinf, .neginf => .nan
  | .neginf, .posinf => .nan
  | .neginf, .neginf => .nan

/-- The numeric value sitting in results[name]["times"] for one cell: the mean
on success (itself NaN when the sample was empty), np.nan on failure. -/
def cellVal : Cell → NpVal
  | .success (some m) _ => .num m
  | .success none _ => .nan
  | .failure _ => .nan

/-- The speedup series generate_plots builds for one non-reference backend
(lines 291-299): the elementwise quotient of the cpu column by that backend's
column, one value per size, passed straight to the plot call. The function
only reads the two columns; the results dict is never written. -/
def speedupSeries (cpuCol otherCol : List NpVal) : List NpVal :=
  List.zipWith npdiv cpuCol otherCol

/-- The text the csv writer produces for one numpy value; the digit rendering
of finite floats is abstracted by toString, and what matters for the claims is
that it is a fixed function of the value, with "nan" as the failure sentinel
(Python str of np.nan). -/
def npValStr : NpVal → String
  | .num q => toString q
  | .posinf => "inf"
  | .neginf => "-inf"
  | .nan => "nan"

/-- The rendered time column entry for one cell. -/
def cellTimeStr (c : Cell) : String :=
  npValStr (cellVal c)

/-- The rendered std column entry for one cell: NaN both when the trial failed
and when the success sample was empty. -/
def cellStdStr : Cell → String
  | .success _ (some s) => npValStr (.num s)
  | .success _ none => "nan"
  | .failure _ => "nan"

/-- The header row of save_benchmark_data (lines 264-267): "qubits" followed
by a time and a std column label per backend, in table order. -/
def csvHeader (table : Table) : List String :=
  "qubits" :: (table.map fun p => [p.1 ++ "_time", p.1 ++ "_std"]).flatten

/-- save_benchmark_data (lines 254-277) as the list of rows it writes: the
header, then one row per size holding the size and, for every backend column
in table order, the rendered time and std at that row index. The getD default
stands for the IndexError Python would raise on a ragged table; on the
completed tables this adapter receives, every column has a cell at every row
index and the default is never read. -/
def csvRows (table : Table) (sizes : List ℕ) : List (List String) :=
  csvHeader table ::
    sizes.enum.map fun p =>
      toString p.2 ::
        (table.map fun q =>
          [cellTimeStr (q.2.getD p.1 (Cell.failure "")),
           cellStdStr (q.2.getD p.1 (Cell.failure ""))]).flatten

/-- One observable execution dispatched to a backend: which backend, the size
whose workload unit was run, and whether the dispatch was inside the timed
benchmark loop (true) or the untimed warmup block (false). -/
inductive Event where
  | exec (backend : String) (size : ℕ) (timed : Bool)
deriving DecidableEq

/-- The dispatches one guarded trial performs: as many timed executions of the
size-n unit as the repeat loop reaches. -/
def trialEvents (b : BackendBeh) (n repeats : ℕ) : List Event :=
  (List.range (dispatchCount (b.runAt n) repeats 0)).map fun _ =>
    Event.exec b.name n true

/-- The dispatches of one sweep row: every backend in order against the fresh
unit for this size. -/
def rowEvents (bs : List BackendBeh) (n repeats : ℕ) : List Event :=
  (bs.map fun b => trialEvents b n repeats).flatten

/-- The dispatches of the whole benchmark loop. -/
def sweepEvents (bs : List BackendBeh) (sizes : List ℕ) (repeats : ℕ) :
    List Event :=
  (sizes.map fun n => rowEvents bs n repeats).flatten

/-- The warmup block (lines 196-207): when the warmup flag is set, one single
untimed execution per backend of the one warmup unit, which is built at the
minimum qubit size; a warmup exception is caught and logged, so exactly one
dispatch happens for every backend regardless of its outcome. -/
def warmupEvents (bs : List BackendBeh) (minQ : ℕ) : List Event :=
  bs.map fun b => Event.exec b.name minQ false

/-- All dispatches of run_benchmarks in order: the optional warmup block first,
then the benchmark loop. -/
def runEvents (warmup : Bool) (bs : List BackendBeh) (minQ : ℕ)
    (sizes : List ℕ) (repeats : ℕ) : List Event :=
  (if warmup then warmupEvents bs minQ else []) ++ sweepEvents bs sizes repeats

/-- The observable outcome of one invocation of main: the process exit status,
how many workload units were generated, the rows written to the csv file (none
when save_benchmark_data never ran), whether plot files were written, and the
finished table handed to the exporters (none when they never ran). -/
structure RunOutcome where
  exitCode : ℕ
  workloads : ℕ
  csvWritten : Option (List (List String))
  plotsWritten : Bool
  finalTable : Option Table
deriving DecidableEq

/-- The tail of a run that finished its sweep (lines 240-251 and the normal
return into main): exit status zero, one workload unit per size, csv rows
written when the save flag is set, plots written unless suppressed, and the
finished table handed read-only to both exporters. -/
def completedRun (bs : List BackendBeh) (sizes : List ℕ) (repeats : ℕ)
    (save_data no_plots : Bool) : RunOutcome :=
  ⟨0, sizes.length,
   if save_data then some (csvRows (tableOf (runSweep bs sizes repeats)) sizes)
   else none,
   !no_plots,
   some (tableOf (runSweep bs sizes repeats))⟩

/-- run_benchmarks together with the handlers of main (lines 163-251 and
333-346), with a user interrupt that can arrive between sweep rows. With an
empty backends dict the run stops at lines 184-186 with sys.exit(1), before
any workload unit is generated and before the results dict exists. A
KeyboardInterrupt before row k of the sweep is not an Exception, so the
per-trial try/except does not catch it: it propagates out of run_benchmarks
past the export calls, main prints a message and exits with status 1; the k
completed rows die with the abandoned call frame and no exporter ever sees
them. An interrupt index beyond the last row means the signal never arrived
during the sweep and the run completes. -/
def runBenchmarksModel (bs : List BackendBeh) (sizes : List ℕ) (repeats : ℕ)
    (save_data no_plots : Bool) (interruptBefore : Option ℕ) : RunOutcome :=
  if bs.isEmpty then ⟨1, 0, none, false, none⟩
  else
    match interruptBefore with
    | some k =>
      if k < sizes.length then ⟨1, k, none, false, none⟩
      else completedRun bs sizes repeats save_data no_plots
    | none => completedRun bs sizes repeats save_data no_plots

/-- A backend that always succeeds in unit time, for concrete instantiations. -/
def okBackend : BackendBeh :=
  ⟨"cpu", fun _ _ => ExecOutcome.ok 1, ExecOutcome.ok 1⟩

/-- Folding sweep rows appends, to every backend column, exactly the cells of
that backend at the folded sizes, in order. -/
theorem foldl_sweepRow (r : ℕ) (sizes : List ℕ) :
    ∀ s : SweepState,
      sizes.foldl (sweepRow r) s =
        s.map fun p => (p.1, p.2 ++ columnFor p.1 sizes r) := by
  induction sizes with
  | nil =>
    intro s
    simp [columnFor]
  | cons n rest ih =>
    intro s
    rw [List.foldl_cons, ih]
    simp only [sweepRow, columnFor, List.map_map, List.map_cons]
    congr 1
    funext p
    simp [Function.comp, List.append_assoc]

/-- Closed form of the sweep: every backend gets, independently of all other
backends, the column computed from its own behavior alone. -/
theorem runSweep_eq (bs : List BackendBeh) (sizes : List ℕ) (r : ℕ) :
    runSweep bs sizes r = bs.map fun b => (b, columnFor b sizes r) := by
  rw [runSweep, foldl_sweepRow]
  simp [initState, List.map_map, Function.comp]

/-- A completed repeat loop returns exactly as many durations as repeats were
requested. -/
theorem runRepeats_ok_length (run : ℕ → ExecOutcome) :
    ∀ (r i : ℕ) (ts : List ℚ), runRepeats run r i = .ok ts → ts.length = r := by
  intro r
  induction r with
  | zero =>
    intro i ts h
    simp only [runRepeats] at h
    cases h
    rfl
  | succ k ih =>
    intro i ts h
    simp only [runRepeats] at h
    cases hr : run i with
    | exn m => rw [hr] at h; cases h
    | ok d =>
      rw [hr] at h
      cases hrr : runRepeats run k (i + 1) with
      | error m => rw [hrr] at h; cases h
      | ok ts' =>
        rw [hrr] at h
        cases h
        simp [ih (i + 1) ts' hrr]

/-- When the first exception of the repeat loop occurs at relative position k,
the loop returns that exception and dispatches exactly k + 1 executions: the
k successful ones before it and the faulting one, never the remaining ones. -/
theorem runRepeats_first_exn (run : ℕ → ExecOutcome) (m : String) :
    ∀ k r i : ℕ, k < r → run (i + k) = .exn m →
      (∀ j, j < k → ∃ d, run (i + j) = .ok d) →
      runRepeats run r i = .error m ∧ dispatchCount run r i = k + 1 := by
  intro k
  induction k with
  | zero =>
    intro r i hr hexn _
    obtain ⟨r', rfl⟩ : ∃ r', r = r' + 1 := ⟨r - 1, by omega⟩
    rw [Nat.add_zero] at hexn
    refine ⟨?_, ?_⟩ <;> simp [runRepeats, dispatchCount, hexn]
  | succ k ih =>
    intro r i hr hexn hok
    obtain ⟨r', rfl⟩ : ∃ r', r = r' + 1 := ⟨r - 1, by omega⟩
    obtain ⟨d, hd⟩ := hok 0 (Nat.succ_pos k)
    rw [Nat.add_zero] at hd
    have hexn' : run (i + 1 + k) = .exn m := by
      rw [show i + 1 + k = i + (k + 1) by omega]
      exact hexn
    have hok' : ∀ j, j < k → ∃ e, run (i + 1 + j) = .ok e := by
      intro j hj
      obtain ⟨e, he⟩ := hok (j + 1) (by omega)
      exact ⟨e, by rw [show i + 1 + j = i + (j + 1) by omega]; exact he⟩
    have hrec := ih r' (i + 1) (by omega) hexn' hok'
    refine ⟨?_, ?_⟩
    · simp [runRepeats, hd, hrec.1]
    · simp only [dispatchCount, hd, hrec.2]
      omega

/-- C1 (amended): in run_benchmarks of wip_benchmarks.py, every backend's
column is a function of that backend's own behavior alone, with one cell per
size produced by the guarded trial, so a raised exception becomes a Failure
cell for that (backend, size) only and neither aborts the sweep nor touches
any other backend's cells; and an exception surfacing from benchmark is
converted to a Failure cell at that boundary. In benchmarks.py, however, only
the GPU calls are guarded: an exception from the CPU call propagates and
aborts the whole sweep. -/
theorem c1_trial_isolation :
    (∀ (bs : List BackendBeh) (sizes : List ℕ) (r : ℕ),
        runSweep bs sizes r = bs.map fun b => (b, columnFor b sizes r)) ∧
    (∀ (run : ℕ → ExecOutcome) (r : ℕ) (m : String),
        benchmark run r = .error m → recordCell run r = .failure m) ∧
    (∀ (cpu g1 g2 : ℕ → ExecOutcome) (m : String) (n : ℕ) (rest : List ℕ),
        cpu n = .exn m → legacySweep cpu g1 g2 (n :: rest) = .error m) := by
  refine ⟨runSweep_eq, ?_, ?_⟩
  · intro run r m h
    simp [recordCell, h]
  · intro cpu g1 g2 m n rest h
    simp [legacySweep, h]

/-- C1 witness: a concrete sweep where the only backend fails at every size
still yields a full column of Failure cells, and a concrete CPU exception in
the original script aborts its sweep. -/
theorem c1_trial_isolation_witness :
    recordCell (fun _ => ExecOutcome.exn "device lost") 1 =
        .failure "device lost" ∧
    legacySweep (fun _ => ExecOutcome.exn "device lost")
        (fun _ => ExecOutcome.ok 1) (fun _ => ExecOutcome.ok 1) [2, 4] =
      .error "device lost" :=
  ⟨c1_trial_isolation.2.1 (fun _ => ExecOutcome.exn "device lost") 1
      "device lost" rfl,
   c1_trial_isolation.2.2 (fun _ => ExecOutcome.exn "device lost")
      (fun _ => ExecOutcome.ok 1) (fun _ => ExecOutcome.ok 1)
      "device lost" 2 [4] rfl⟩

/-- C1 counterexample: in benchmarks.py the CPU benchmark call is not inside a
try/except, so when the CPU backend raises at the first size the whole sweep
aborts with that exception instead of recording a Failure cell and
continuing; the claim that every backend's trial exception is caught at the
trial boundary is therefore false on this repository. -/
theorem c1_counterexample :
    legacySweep (fun _ => ExecOutcome.exn "cpu thread crash")
        (fun _ => ExecOutcome.ok 1) (fun _ => ExecOutcome.ok 1) [2, 4] =
      .error "cpu thread crash" := rfl

/-- C2: a timed repeat that raises at position k (zero-based k, so repeat
k + 1 of the claim's one-based counting) makes the trial record a Failure
cell, with exactly k + 1 executions dispatched — the remaining repeats are
never attempted and the durations of the earlier repeats are discarded with
the aborted loop; and any Success cell comes from a completed repeat loop
whose duration sample has exactly the configured number of repeats. -/
theorem c2_failure_discards_repeats :
    (∀ (run : ℕ → ExecOutcome) (r k : ℕ) (m : String),
        k < r → run k = .exn m → (∀ j, j < k → ∃ d, run j = .ok d) →
        recordCell run r = .failure m ∧ dispatchCount run r 0 = k + 1) ∧
    (∀ (run : ℕ → ExecOutcome) (r : ℕ) (mean sd : Option ℚ),
        recordCell run r = .success mean sd →
        ∃ ts, runRepeats run r 0 = .ok ts ∧ ts.length = r) := by
  constructor
  · intro run r k m hk hexn hok
    have h := runRepeats_first_exn run m k r 0 hk (by simpa using hexn)
      (by simpa using hok)
    exact ⟨by simp [recordCell, benchmark, h.1], h.2⟩
  · intro run r mean sd h
    cases hrr : runRepeats run r 0 with
    | error m => simp [recordCell, benchmark, hrr] at h
    | ok ts => exact ⟨ts, rfl, runRepeats_ok_length run r 0 ts hrr⟩

/-- C2 witness: a backend that succeeds on the first repeat and raises on the
second, under three configured repeats, records a Failure after exactly two
dispatches; and an always-succeeding trial under two repeats collects exactly
two durations. -/
theorem c2_failure_discards_repeats_witness :
    (recordCell (fun i => if i = 0 then ExecOutcome.ok 1
        else ExecOutcome.exn "oom") 3 = .failure "oom" ∧
      dispatchCount (fun i => if i = 0 then ExecOutcome.ok 1
        else ExecOutcome.exn "oom") 3 0 = 1 + 1) ∧
    ∃ ts, runRepeats (fun _ => ExecOutcome.ok 1) 2 0 = .ok ts ∧
      ts.length = 2 :=
  ⟨c2_failure_discards_repeats.1
      (fun i => if i = 0 then ExecOutcome.ok 1 else ExecOutcome.exn "oom")
      3 1 "oom" (by omega) rfl
      (fun j hj => ⟨1, by interval_cases j; rfl⟩),
   c2_failure_discards_repeats.2 (fun _ => ExecOutcome.ok 1) 2
      (some 1) (some 0)
      (by
        have h1 : runRepeats (fun _ => ExecOutcome.ok 1) 2 0 = .ok [1, 1] := rfl
        have h2 : nmean [1, 1] = some 1 := by norm_num [nmean]
        have h3 : nvar [1, 1] = some 0 := by simp [nvar, h2]
        simp [recordCell, benchmark, h1, h2, h3])⟩

/-- C3 (amended): a GPU backend whose construction fails is skipped with a
printed warning, the run continues with whatever else constructed, and a name
that is not among the initialized backends never appears as a key of the
result table; but the CPU backend's construction is not guarded, so a CPU
initialization failure propagates out of setup_backends and aborts the whole
run instead — the guarantee holds only for the two GPU backends. -/
theorem c3_gpu_init_excluded :
    (∀ (e : String) (gpuCCtor : Except String Unit) (blist : List String),
        ∃ names,
          setup_backends (.ok ()) (.error e) gpuCCtor blist = .ok names ∧
          "gpu_default" ∉ names) ∧
    (∀ (e : String) (gpuDCtor : Except String Unit) (blist : List String),
        ∃ names,
          setup_backends (.ok ()) gpuDCtor (.error e) blist = .ok names ∧
          "gpu_custatevec" ∉ names) ∧
    (∀ (bs : List BackendBeh) (sizes : List ℕ) (r : ℕ) (nm : String),
        nm ∉ bs.map BackendBeh.name →
        nm ∉ (tableOf (runSweep bs sizes r)).map Prod.fst) := by
  refine ⟨?_, ?_, ?_⟩
  · intro e gpuCCtor blist
    simp only [setup_backends]
    cases h3 : wantsBackend blist "cpu" <;>
      cases h1 : wantsBackend blist "gpu_default" <;>
        cases h2 : wantsBackend blist "gpu_custatevec" <;>
          cases gpuCCtor <;> simp [h1, h2, h3]
  · intro e gpuDCtor blist
    simp only [setup_backends]
    cases h3 : wantsBackend blist "cpu" <;>
      cases h1 : wantsBackend blist "gpu_default" <;>
        cases h2 : wantsBackend blist "gpu_custatevec" <;>
          cases gpuDCtor <;> simp [h1, h2, h3]
  · intro bs sizes r nm hnm
    simp only [tableOf, runSweep_eq, List.map_map]
    simpa [Function.comp] using hnm

/-- C3 witness: with gpu_default failing while gpu_custatevec constructs, and
with gpu_custatevec failing while gpu_default constructs, the run continues
and exactly the failed backend's name is excluded; and a backend name not
among the initialized ones is absent from a concrete result table's keys. -/
theorem c3_gpu_init_excluded_witness :
    (∃ names,
        setup_backends (.ok ()) (.error "no gpu") (.ok ()) ["all"] =
          .ok names ∧ "gpu_default" ∉ names) ∧
    (∃ names,
        setup_backends (.ok ()) (.ok ()) (.error "no cusv") ["all"] =
          .ok names ∧ "gpu_custatevec" ∉ names) ∧
    "gpu_default" ∉ (tableOf (runSweep [okBackend] [2] 1)).map Prod.fst :=
  ⟨c3_gpu_init_excluded.1 "no gpu" (.ok ()) ["all"],
   c3_gpu_init_excluded.2.1 "no cusv" (.ok ()) ["all"],
   c3_gpu_init_excluded.2.2 [okBackend] [2] 1 "gpu_default" (by decide)⟩

/-- C3 counterexample: when the CPU constructor raises, setup_backends raises
too instead of recording the backend as unavailable and continuing — the run
aborts, so the claim's guarantee does not hold for every backend in the
registry. -/
theorem c3_counterexample :
    setup_backends (.error "CUDA driver mismatch") (.ok ()) (.ok ()) ["all"] =
      .error "CUDA driver mismatch" := rfl

/-- C4: after a completed sweep, the result table has exactly the initialized
backends as keys, in registration order, and every backend's column has
exactly one cell per configured size, in sweep order — never more, never
fewer. -/
theorem c4_table_complete :
    ∀ (bs : List BackendBeh) (sizes : List ℕ) (r : ℕ),
      (tableOf (runSweep bs sizes r)).map Prod.fst =
          bs.map BackendBeh.name ∧
      ∀ p, p ∈ tableOf (runSweep bs sizes r) → p.2.length = sizes.length := by
  intro bs sizes r
  constructor
  · simp [tableOf, runSweep_eq, List.map_map, Function.comp]
  · intro p hp
    simp only [tableOf, runSweep_eq, List.map_map] at hp
    obtain ⟨b, hb, rfl⟩ := List.mem_map.mp hp
    simp [Function.comp, columnFor]

/-- C4 witness: a concrete one-backend two-size sweep has key list cpu and a
column of exactly two cells. -/
theorem c4_table_complete_witness :
    (tableOf (runSweep [okBackend] [2, 4] 0)).map Prod.fst = ["cpu"] ∧
    ("cpu", [Cell.success none none, Cell.success none none]).2.length =
      [2, 4].length :=
  ⟨(c4_table_complete [okBackend] [2, 4] 0).1,
   (c4_table_complete [okBackend] [2, 4] 0).2
      ("cpu", [Cell.success none none, Cell.success none none]) (by decide)⟩

/-- C5 (amended): the speedup computation of generate_plots is a read-only
elementwise division of the finished columns; it never raises a division
error (a finite value over zero is a signed infinity or NaN, with at most a
RuntimeWarning), and whenever either operand cell is a Failure the resulting
value is NaN — never a numeric zero; but the NaN is kept as an entry of the
series handed to the plot call (the series has one entry per size), relying
on the plotting library to render it as a gap, rather than the point being
omitted from the chart data. -/
theorem c5_speedup_guard :
    (∀ a b : NpVal, a = .nan ∨ b = .nan → npdiv a b = .nan) ∧
    (∀ q : ℚ, npdiv (.num q) .nan ≠ .num 0) ∧
    (∀ q : ℚ, npdiv (.num q) (.num 0) =
        if 0 < q then .posinf else if q < 0 then .neginf else .nan) ∧
    (∀ c o : List NpVal,
        (speedupSeries c o).length = min c.length o.length) := by
  refine ⟨?_, ?_, ?_, ?_⟩
  · intro a b h
    rcases h with rfl | rfl
    · cases b <;> rfl
    · cases a <;> rfl
  · intro q
    simp [npdiv]
  · intro q
    simp [npdiv]
  · intro c o
    simp [speedupSeries]

/-- C5 witness: dividing by a Failure operand yields NaN and is in particular
not zero. -/
theorem c5_speedup_guard_witness :
    npdiv .nan (.num 1) = .nan ∧ npdiv (.num 1) .nan ≠ .num 0 :=
  ⟨c5_speedup_guard.1 .nan (.num 1) (Or.inl rfl),
   c5_speedup_guard.2.1 1⟩

/-- C5 counterexample: with a successful reference cell and a Failure operand
cell, the speedup series still contains an entry for that size and the entry
is NaN — the NaN is silently propagated into the chart data rather than the
point being absent, contradicting the claim as stated. -/
theorem c5_counterexample :
    speedupSeries [NpVal.num 1] [NpVal.nan] = [NpVal.nan] := rfl

/-- C6 (amended): a user interrupt arriving between sweep rows is not caught
inside run_benchmarks — the KeyboardInterrupt escapes the per-trial except
Exception handler, propagates past the export calls, and is caught only by
main, which exits with status 1; the rows completed so far are lost with the
abandoned call frame, no csv is written, no plot is produced and no exporter
ever receives the partial table. -/
theorem c6_interrupt_discards_rows :
    ∀ (bs : List BackendBeh) (sizes : List ℕ) (r : ℕ) (sd npl : Bool)
      (k : ℕ), bs ≠ [] → k < sizes.length →
      runBenchmarksModel bs sizes r sd npl (some k) =
        ⟨1, k, none, false, none⟩ := by
  intro bs sizes r sd npl k hbs hk
  cases bs with
  | nil => exact absurd rfl hbs
  | cons b bs' => simp [runBenchmarksModel, hk]

/-- C6 witness: a concrete run of one backend over two sizes, interrupted
after the first row, exits with status 1 having written nothing. -/
theorem c6_interrupt_discards_rows_witness :
    runBenchmarksModel [okBackend] [2, 4] 1 true false (some 1) =
      ⟨1, 1, none, false, none⟩ :=
  c6_interrupt_discards_rows [okBackend] [2, 4] 1 true false 1
    (by simp) (by decide)

/-- C6 counterexample: in a run with the csv export requested, interrupted
after two completed rows of three, no csv content is ever written, the
exporters receive no table, and the process reports an error exit status —
the completed rows are not preserved as a successful partial run, refuting
the claim as stated. -/
theorem c6_counterexample :
    (runBenchmarksModel [okBackend] [2, 4, 6] 1 true false (some 2)).exitCode
        = 1 ∧
    (runBenchmarksModel [okBackend] [2, 4, 6] 1 true false
        (some 2)).csvWritten = none ∧
    (runBenchmarksModel [okBackend] [2, 4, 6] 1 true false
        (some 2)).finalTable = none :=
  ⟨rfl, rfl, rfl⟩

/-- C7 (amended): when the warmup flag is set, run_benchmarks performs exactly
one untimed execution per backend — of the single warmup unit built at the
minimum qubit size — once before the whole sweep, not one per trial of the
trial's own unit; every warmup outcome is caught and discarded, so neither
the timed dispatch sequence nor any recorded cell depends on the warmup
responses, and a warmup failure never prevents the timed repeats. -/
theorem c7_single_warmup_run :
    ∀ (bs : List BackendBeh) (minQ : ℕ) (sizes : List ℕ) (r : ℕ)
      (w : String → ExecOutcome),
      runEvents true bs minQ sizes r =
          warmupEvents bs minQ ++ sweepEvents bs sizes r ∧
      warmupEvents bs minQ = bs.map (fun b => Event.exec b.name minQ false) ∧
      sweepEvents (bs.map fun b => ⟨b.name, b.runAt, w b.name⟩) sizes r =
          sweepEvents bs sizes r ∧
      tableOf (runSweep (bs.map fun b => ⟨b.name, b.runAt, w b.name⟩) sizes r)
          = tableOf (runSweep bs sizes r) := by
  intro bs minQ sizes r w
  refine ⟨rfl, rfl, ?_, ?_⟩
  · simp only [sweepEvents, rowEvents, List.map_map]
    rfl
  · simp only [tableOf, runSweep_eq, List.map_map]
    rfl

/-- C7 counterexample: with warmup enabled, one backend and the two sizes 2
and 4, the full dispatch trace contains no untimed execution of the size-4
unit at all, while it does contain the timed trial at size 4 — so that trial
is not preceded by an untimed execution of its own unit, refuting the claim
as stated. -/
theorem c7_counterexample :
    (runEvents true [okBackend] 2 [2, 4] 1).count
        (Event.exec "cpu" 4 false) = 0 ∧
    (runEvents true [okBackend] 2 [2, 4] 1).count
        (Event.exec "cpu" 4 true) = 1 := by
  decide

/-- C8 (amended): a repeat count of zero is not rejected anywhere — argparse
accepts it unchanged and there is no validation before the sweep — so the
sweep runs and every trial records a cell through the success branch, a
Success whose duration sample is empty and whose mean and std are NaN; no
configuration error aborts the run. -/
theorem c8_zero_repeats_accepted :
    ∀ (run : ℕ → ExecOutcome) (bs : List BackendBeh) (sizes : List ℕ),
      parseRepeats (some 0) = .ok 0 ∧
      recordCell run 0 = .success none none ∧
      ∀ p, p ∈ runSweep bs sizes 0 → ∀ c, c ∈ p.2 →
        c = .success none none := by
  intro run bs sizes
  refine ⟨rfl, rfl, ?_⟩
  intro p hp c hc
  rw [runSweep_eq] at hp
  obtain ⟨b, hb, rfl⟩ := List.mem_map.mp hp
  simp only [columnFor] at hc
  obtain ⟨n, hn, rfl⟩ := List.mem_map.mp hc
  rfl

/-- C8 witness: a concrete zero-repeat sweep in which the recorded cell of the
only backend is a Success with an empty sample. -/
theorem c8_zero_repeats_accepted_witness :
    parseRepeats (some 0) = .ok 0 ∧
    Cell.success none none = .success none none :=
  ⟨(c8_zero_repeats_accepted (fun _ => ExecOutcome.ok 1) [okBackend] [2]).1,
   (c8_zero_repeats_accepted (fun _ => ExecOutcome.ok 1) [okBackend] [2]).2.2
      (okBackend, [Cell.success none none])
      (by rw [runSweep_eq]; exact List.mem_singleton.mpr rfl)
      (Cell.success none none) (List.mem_singleton.mpr rfl)⟩

/-- C8 counterexample: with repeats set to zero the configuration is accepted
without any error and the sweep does produce cells — here a table with one
Success cell — contradicting the claim that a fatal configuration error
prevents any sweep and any cell under such a configuration. -/
theorem c8_counterexample :
    parseRepeats (some 0) = .ok 0 ∧
    tableOf (runSweep [okBackend] [2] 0) =
      [("cpu", [Cell.success none none])] := by
  constructor
  · rfl
  · rw [runSweep_eq]; rfl

/-- C9: the tabular export is a deterministic pure function of the finished
table and the size list — running it twice on the same table yields identical
rows, with the same header, the same row order and the same cell rendering —
and a Failure cell renders as the NaN sentinel in both of its columns, never
as a number. -/
theorem c9_export_deterministic :
    (∀ (t1 t2 : Table) (s1 s2 : List ℕ), t1 = t2 → s1 = s2 →
        csvRows t1 s1 = csvRows t2 s2) ∧
    (∀ m, cellTimeStr (Cell.failure m) = "nan" ∧
        cellStdStr (Cell.failure m) = "nan") := by
  constructor
  · intro t1 t2 s1 s2 ht hs
    rw [ht, hs]
  · intro m
    exact ⟨rfl, rfl⟩

/-- C9 witness: two invocations of the export on one concrete finished table
containing a Failure cell agree, and that cell renders as nan. -/
theorem c9_export_deterministic_witness :
    csvRows [("cpu", [Cell.failure "x"])] [2] =
        csvRows [("cpu", [Cell.failure "x"])] [2] ∧
    cellTimeStr (Cell.failure "x") = "nan" ∧
    cellStdStr (Cell.failure "x") = "nan" :=
  ⟨c9_export_deterministic.1 [("cpu", [Cell.failure "x"])]
      [("cpu", [Cell.failure "x"])] [2] [2] rfl rfl,
   (c9_export_deterministic.2 "x").1, (c9_export_deterministic.2 "x").2⟩

/-- C10: when no requested backend initialized, so the backends dict is empty,
the run stops at the empty-registry check with exit status 1 before any
workload unit is generated: no trial executes, no table exists, no csv and no
plot is produced; and a GPU-only request whose two constructions both fail is
exactly such a run. -/
theorem c10_empty_registry_aborts :
    ∀ (e1 e2 : String) (cpuCtor : Except String Unit) (sizes : List ℕ)
      (r : ℕ) (sd npl : Bool) (intr : Option ℕ),
      setup_backends cpuCtor (.error e1) (.error e2)
          ["gpu_default", "gpu_custatevec"] = .ok [] ∧
      runBenchmarksModel [] sizes r sd npl intr =
        ⟨1, 0, none, false, none⟩ := by
  intro e1 e2 cpuCtor sizes r sd npl intr
  exact ⟨rfl, rfl⟩

end QBench
